import Mathlib

/-!
Shallow embedding of the batch-management front-end:
  - src/client/lib/api.ts       (getApiBaseUrl)
  - src/unnamed/part_000        (BatchManagement page component)

Pure helpers model the JavaScript string primitives used by the source
(String.prototype.includes, startsWith, toLowerCase, trim); the stateful
handlers are modelled as functions from their inputs and the observed
network outcome to an explicit record of the effects they perform
(requests issued, state after, toasts shown, console logs written).
-/

/-- Model of JS String.prototype.includes restricted to the character level:
`listContains needle hay` is true iff `needle` occurs contiguously in `hay`. -/
def listContains (needle : List Char) : List Char → Bool
  | [] => needle.isEmpty
  | c :: t => needle.isPrefixOf (c :: t) || listContains needle t

/-- `strIncludes hay needle` models JS `hay.includes(needle)`. -/
def strIncludes (hay needle : String) : Bool :=
  listContains needle.data hay.data

/-- `strStartsWith s p` models JS `s.startsWith(p)`; the regex test
`/^192\.168\./` in the source is also a prefix test. -/
def strStartsWith (s p : String) : Bool :=
  p.data.isPrefixOf s.data

/-- Model of JS String.prototype.toLowerCase (character-wise lowering). -/
def strToLower (s : String) : String :=
  ⟨s.data.map Char.toLower⟩

/-- Characters removed by JS String.prototype.trim. -/
def isJsWhitespace (c : Char) : Bool :=
  c = ' ' || c = '\t' || c = '\n' || c = '\r' || c = '\x0b' || c = '\x0c'

/-- Model of JS String.prototype.trim. -/
def jsTrim (s : String) : String :=
  ⟨((s.data.dropWhile isJsWhitespace).reverse.dropWhile isJsWhitespace).reverse⟩

/-- src/client/lib/api.ts, getApiBaseUrl, the branch on a string value of
the environment variable.  JS truthiness: the empty string is falsy, so it
falls into case 1 exactly like an unset variable. -/
def getApiBaseUrlStr (rawBaseUrl : String) : String :=
  if rawBaseUrl = "" then
    "http://localhost:3001"
  else if strStartsWith rawBaseUrl "http://" || strStartsWith rawBaseUrl "https://" then
    rawBaseUrl
  else if strIncludes rawBaseUrl "localhost" || strStartsWith rawBaseUrl "192.168." then
    "http://" ++ (rawBaseUrl ++ "/api")
  else
    "https://" ++ (rawBaseUrl ++ "/api")

/-- src/client/lib/api.ts, getApiBaseUrl: `import.meta.env.VITE_API_BASE_URL`
is either absent (`none`) or a string. -/
def getApiBaseUrl (raw : Option String) : String :=
  match raw with
  | none => "http://localhost:3001"
  | some s => getApiBaseUrlStr s

/-- src/unnamed/part_000, interface Skill. -/
structure Skill where
  id : String
  name : String
  description : String
  category : String
deriving DecidableEq

/-- src/unnamed/part_000, interface Availability. -/
structure Availability where
  id : String
  day_of_week : String
  start_time : String
  end_time : String
deriving DecidableEq

/-- src/unnamed/part_000, interface Faculty; `type` is the string
"full-time" or "part-time". -/
structure Faculty where
  id : String
  name : String
  type : String
  skills : List Skill
  isActive : Bool
  availability : List Availability
deriving DecidableEq

/-- src/unnamed/part_000, interface Student. -/
structure Student where
  id : String
  name : String
  admission_number : String
  phone_number : String
deriving DecidableEq

/-- src/unnamed/part_000, interface Batch (the declared fields). -/
structure Batch where
  id : String
  name : String
  faculty_id : String
  student_ids : List String
  start_date : String
  end_date : String
  start_time : String
  end_time : String
  days_of_week : List String
  skill : Skill
deriving DecidableEq

/-- src/unnamed/part_000, interface BatchFormData; `status` is one of the
strings "Upcoming", "active", "completed". -/
structure BatchFormData where
  name : String
  description : String
  startDate : String
  endDate : String
  startTime : String
  endTime : String
  facultyId : String
  skillId : String
  maxStudents : Nat
  status : String
  studentIds : List String
  daysOfWeek : List String
deriving DecidableEq

/-- HTTP methods used by the component. -/
inductive HttpMethod where
  | get
  | post
  | put
  | delete
deriving DecidableEq

/-- JSON request bodies the component serializes, kept structured. -/
inductive RequestBody where
  | empty
  | batchForm (data : BatchFormData)
  | student (name admission_number phone_number : String)
deriving DecidableEq

/-- One HTTP request issued via fetch. -/
structure ApiRequest where
  method : HttpMethod
  url : String
  body : RequestBody
deriving DecidableEq

/-- One toast.error notification (title plus description). -/
structure Toast where
  title : String
  description : String
deriving DecidableEq

/-- Observed outcome of one fetch: the response arrived with `response.ok`
true, it arrived with a non-success status, or the request (or its body
parse) threw. -/
inductive FetchOutcome where
  | ok
  | httpError
  | networkError (msg : String)
deriving DecidableEq

/-- src/unnamed/part_000, filteredBatches:
`batches.filter(b => b.name.toLowerCase().includes(searchTerm.toLowerCase()))`. -/
def filteredBatches (searchTerm : String) (batches : List Batch) : List Batch :=
  batches.filter (fun batch => strIncludes (strToLower batch.name) (strToLower searchTerm))

/-- Effects of the save-batch flow: the requests issued, the dialog-open
flag and selected batch after everything settles, whether the batch list
was re-fetched, and the toasts and console logs produced. -/
structure SubmitEffects where
  requests : List ApiRequest
  dialogOpen : Bool
  selectedAfter : Option Batch
  refetchBatches : Bool
  toasts : List Toast
  logs : List String
deriving DecidableEq

/-- src/unnamed/part_000, handleSaveBatch.  `sel` is selectedBatch at call
time, `dialogOpen` and `selected` the page state when the fetch settles.
The payload is `{ ...data }`, the spread copy of the form data; the URL and
method depend on whether a batch is selected; only the `response.ok` branch
re-fetches batches, closes the dialog and clears the selection, the other
branches toast and log. -/
def handleSaveBatch (base : String) (sel : Option Batch) (data : BatchFormData)
    (o : FetchOutcome) (dialogOpen : Bool) (selected : Option Batch) : SubmitEffects :=
  let req : ApiRequest :=
    match sel with
    | some b => ⟨HttpMethod.put, base ++ "/api/batches/" ++ b.id, RequestBody.batchForm data⟩
    | none => ⟨HttpMethod.post, base ++ "/api/batches", RequestBody.batchForm data⟩
  match o with
  | FetchOutcome.ok =>
      ⟨[req], false, none, true, [], []⟩
  | FetchOutcome.httpError =>
      ⟨[req], dialogOpen, selected, false,
        [⟨"Error saving batch", "Could not save the batch."⟩],
        ["Failed to save batch"]⟩
  | FetchOutcome.networkError msg =>
      ⟨[req], dialogOpen, selected, false,
        [⟨"Error saving batch", "An error occurred: " ++ msg⟩],
        ["Error saving batch:"]⟩

/-- src/unnamed/part_000, handleSubmit of BatchDialog:
`onSave(formData); onOpenChange(false);`.  onSave (handleSaveBatch) is
async and not awaited: it runs up to its fetch, control returns, and
`onOpenChange(false)` closes the dialog before the response settles, so
the save continuation observes the dialog already closed and the selection
still in place. -/
def handleSubmit (base : String) (sel : Option Batch) (form : BatchFormData)
    (o : FetchOutcome) : SubmitEffects :=
  handleSaveBatch base sel form o false sel

/-- Effects of the delete-batch flow. -/
structure DeleteEffects where
  requests : List ApiRequest
  refetchBatches : Bool
  toasts : List Toast
  logs : List String
deriving DecidableEq

/-- src/unnamed/part_000, handleDeleteBatch: guarded by
`confirm("Are you sure you want to delete this batch?")`; on confirmation
a DELETE is issued; `response.ok` re-fetches batches, otherwise only a
console log is written, never a toast. -/
def handleDeleteBatch (base : String) (confirmed : Bool) (id : String)
    (o : FetchOutcome) : DeleteEffects :=
  if confirmed then
    let req : ApiRequest := ⟨HttpMethod.delete, base ++ "/api/batches/" ++ id, RequestBody.empty⟩
    match o with
    | FetchOutcome.ok => ⟨[req], true, [], []⟩
    | FetchOutcome.httpError => ⟨[req], false, [], ["Failed to delete batch"]⟩
    | FetchOutcome.networkError msg => ⟨[req], false, [], ["Error deleting batch: " ++ msg]⟩
  else
    ⟨[], false, [], []⟩

/-- Effects of the inline add-student flow: requests issued, the three
input fields afterwards, whether the full student list was re-fetched
(onStudentAdded), and the toasts and logs produced. -/
structure AddStudentEffects where
  requests : List ApiRequest
  newStudentName : String
  newStudentAdmissionNumber : String
  newStudentPhoneNumber : String
  studentsRefetched : Bool
  toasts : List Toast
  logs : List String
deriving DecidableEq

/-- src/unnamed/part_000, handleAddStudent: guarded by the truthiness of
`newStudentName.trim()` and `newStudentAdmissionNumber.trim()`; when both
trimmed strings are nonempty a POST is issued with the untrimmed values;
`response.ok` re-fetches students via onStudentAdded and clears the three
fields, otherwise only a console log is written. -/
def handleAddStudent (base : String) (name admission phone : String)
    (o : FetchOutcome) : AddStudentEffects :=
  if jsTrim name ≠ "" ∧ jsTrim admission ≠ "" then
    let req : ApiRequest :=
      ⟨HttpMethod.post, base ++ "/api/students", RequestBody.student name admission phone⟩
    match o with
    | FetchOutcome.ok => ⟨[req], "", "", "", true, [], []⟩
    | FetchOutcome.httpError =>
        ⟨[req], name, admission, phone, false, [], ["Failed to add student"]⟩
    | FetchOutcome.networkError msg =>
        ⟨[req], name, admission, phone, false, [], ["Error adding student: " ++ msg]⟩
  else
    ⟨[], name, admission, phone, false, [], []⟩

/-- Outcome of a collection GET whose handler never looks at
`response.ok`: the only failure path is the fetch or `response.json()`
throwing (for a completed response the parsed body is stored as is). -/
inductive ListFetchOutcome (α : Type) where
  | success (data : List α)
  | networkError (msg : String)

/-- src/unnamed/part_000, fetchBatches: stores the parsed body; the catch
branch only logs, leaving the batches slice unchanged. -/
def fetchBatches (batches : List Batch) (o : ListFetchOutcome Batch) :
    List Batch × List String :=
  match o with
  | ListFetchOutcome.success data => (data, [])
  | ListFetchOutcome.networkError msg => (batches, ["Error fetching batches: " ++ msg])

/-- src/unnamed/part_000, fetchFaculties: stores the parsed body; the
catch branch only logs, leaving the faculties slice unchanged. -/
def fetchFaculties (faculties : List Faculty) (o : ListFetchOutcome Faculty) :
    List Faculty × List String :=
  match o with
  | ListFetchOutcome.success data => (data, [])
  | ListFetchOutcome.networkError msg => (faculties, ["Error fetching faculties: " ++ msg])

/-- Outcome of the skills GET: the handler distinguishes an array body, a
non-array body (`Array.isArray` guard), and a thrown fetch or parse. -/
inductive SkillsFetchOutcome where
  | arrayData (data : List Skill)
  | nonArrayData
  | networkError (msg : String)

/-- src/unnamed/part_000, fetchSkills:
`setSkills(Array.isArray(data) ? data : [])`, and the catch branch logs
AND resets the skills slice to the empty list. -/
def fetchSkills (_skills : List Skill) (o : SkillsFetchOutcome) :
    List Skill × List String :=
  match o with
  | SkillsFetchOutcome.arrayData data => (data, [])
  | SkillsFetchOutcome.nonArrayData => ([], [])
  | SkillsFetchOutcome.networkError msg => ([], ["Error fetching skills: " ++ msg])

/-- src/unnamed/part_000, the faculty Select onValueChange inside
BatchDialog: `setFormData({ ...formData, facultyId: value, skillId: "" })`
— one state update setting the new faculty and clearing the skill. -/
def selectFacultyChange (formData : BatchFormData) (value : String) : BatchFormData :=
  { formData with facultyId := value, skillId := "" }

/-- src/unnamed/part_000, selectedFaculty and availableSkills:
`faculties.find(f => f.id === formData.facultyId)`; its skills when found,
the globally fetched skills otherwise. -/
def availableSkills (faculties : List Faculty) (skills : List Skill)
    (formData : BatchFormData) : List Skill :=
  match faculties.find? (fun f => f.id == formData.facultyId) with
  | some f => f.skills
  | none => skills

/-- The fields the form marks `required` (browser-level validation):
name, maxStudents, both dates, both times. -/
def requiredFilled (f : BatchFormData) : Prop :=
  f.name ≠ "" ∧ 1 ≤ f.maxStudents ∧ f.startDate ≠ "" ∧ f.endDate ≠ "" ∧
    f.startTime ≠ "" ∧ f.endTime ≠ ""

instance (f : BatchFormData) : Decidable (requiredFilled f) := by
  unfold requiredFilled
  infer_instance

/-- A concrete form value used in closed instances. -/
def sampleForm : BatchFormData :=
  ⟨"Algebra-1", "", "2024-01-10", "2024-06-10", "09:00", "10:00",
    "F1", "SK1", 30, "Upcoming", [], ["Monday", "Wednesday"]⟩

/-- A concrete skill used in closed instances. -/
def sampleSkill : Skill :=
  ⟨"SK1", "Math", "Mathematics", "Science"⟩

/-- A concrete faculty used in closed instances. -/
def sampleFaculty : Faculty :=
  ⟨"F1", "Alice", "full-time", [sampleSkill], true, []⟩

/-- A concrete batch used in closed instances. -/
def sampleBatch : Batch :=
  ⟨"B1", "Algebra-1", "F1", [], "2024-01-10", "2024-06-10", "09:00", "10:00",
    ["Monday"], sampleSkill⟩

/-- A second concrete batch used in closed instances. -/
def sampleBatch2 : Batch :=
  ⟨"B2", "Chemistry", "F1", [], "2024-01-10", "2024-06-10", "11:00", "12:00",
    ["Tuesday"], sampleSkill⟩

lemma listContains_nil (hay : List Char) : listContains [] hay = true := by
  induction hay with
  | nil => rfl
  | cons c t ih => simp [listContains, ih, List.isPrefixOf]

lemma strStartsWith_ne_empty {s p : String} (hp : p ≠ "")
    (h : strStartsWith s p = true) : s ≠ "" := by
  intro hs
  subst hs
  unfold strStartsWith at h
  rw [List.isPrefixOf_iff_prefix] at h
  have : p.data = [] := List.prefix_nil.mp h
  exact hp (by cases p; simp_all)

lemma strStartsWith_append (p r : String) : strStartsWith (p ++ r) p = true := by
  unfold strStartsWith
  rw [List.isPrefixOf_iff_prefix, String.data_append]
  exact List.prefix_append _ _

/-- Any string carrying an explicit scheme is returned verbatim. -/
lemma scheme_fixed {s : String}
    (h : strStartsWith s "http://" = true ∨ strStartsWith s "https://" = true) :
    getApiBaseUrlStr s = s := by
  have hne : s ≠ "" := by
    rcases h with h | h
    · exact strStartsWith_ne_empty (by decide) h
    · exact strStartsWith_ne_empty (by decide) h
  unfold getApiBaseUrlStr
  rw [if_neg hne, if_pos]
  rcases h with h | h <;> simp [h]

lemma getApiBaseUrl_scheme (raw : Option String) :
    strStartsWith (getApiBaseUrl raw) "http://" = true ∨
      strStartsWith (getApiBaseUrl raw) "https://" = true := by
  match raw with
  | none => exact Or.inl (by decide)
  | some s =>
    by_cases h0 : s = ""
    · subst h0
      exact Or.inl (by decide)
    · by_cases h1 : (strStartsWith s "http://" || strStartsWith s "https://") = true
      · have hv : getApiBaseUrl (some s) = s := by
          show getApiBaseUrlStr s = s
          unfold getApiBaseUrlStr
          rw [if_neg h0, if_pos h1]
        rw [hv]
        exact (Bool.or_eq_true _ _).mp h1
      · by_cases h2 : (strIncludes s "localhost" || strStartsWith s "192.168.") = true
        · left
          show strStartsWith (getApiBaseUrlStr s) "http://" = true
          unfold getApiBaseUrlStr
          rw [if_neg h0, if_neg h1, if_pos h2]
          exact strStartsWith_append _ _
        · right
          show strStartsWith (getApiBaseUrlStr s) "https://" = true
          unfold getApiBaseUrlStr
          rw [if_neg h0, if_neg h1, if_neg h2]
          exact strStartsWith_append _ _

/-- C3 fails at the empty string: it is scheme-less, contains no
"localhost", does not begin with "192.168.", yet the resolver returns the
local default origin, not `https:///api`. -/
theorem resolver_empty_string_cex :
    (strStartsWith "" "http://" = false ∧ strStartsWith "" "https://" = false) ∧
    strIncludes "" "localhost" = false ∧
    strStartsWith "" "192.168." = false ∧
    getApiBaseUrlStr "" = "http://localhost:3001" ∧
    getApiBaseUrlStr "" ≠ "https://" ++ ("" ++ "/api") := by
  decide

/-- C3 (amended): for every NONEMPTY scheme-less configuration string, the
resolver returns `http://<input>/api` when the string contains "localhost"
or begins with "192.168.", and `https://<input>/api` otherwise. -/
theorem resolver_schemeless (s : String) (hne : s ≠ "")
    (h1 : strStartsWith s "http://" = false)
    (h2 : strStartsWith s "https://" = false) :
    getApiBaseUrlStr s =
      if strIncludes s "localhost" || strStartsWith s "192.168." then
        "http://" ++ (s ++ "/api")
      else
        "https://" ++ (s ++ "/api") := by
  unfold getApiBaseUrlStr
  rw [if_neg hne, if_neg (by simp [h1, h2])]

/-- Witness for C3 (amended) at two concrete inputs, one per branch. -/
theorem resolver_schemeless_witness :
    getApiBaseUrlStr "192.168.1.50:3001" = "http://" ++ ("192.168.1.50:3001" ++ "/api") ∧
    getApiBaseUrlStr "api.example.com" = "https://" ++ ("api.example.com" ++ "/api") := by
  constructor
  · rw [resolver_schemeless "192.168.1.50:3001" (by decide) (by decide) (by decide)]
    decide
  · rw [resolver_schemeless "api.example.com" (by decide) (by decide) (by decide)]
    decide

/-- C9: every configuration string beginning with `http://` or `https://`
is returned unchanged, no `/api` suffix appended. -/
theorem resolver_scheme_verbatim (s : String)
    (h : strStartsWith s "http://" = true ∨ strStartsWith s "https://" = true) :
    getApiBaseUrlStr s = s :=
  scheme_fixed h

/-- Witness for C9 at a concrete input that also contains a `192.168.`
address, showing no `/api` suffix is appended even then. -/
theorem resolver_scheme_verbatim_witness :
    (strStartsWith "http://192.168.1.50:3001" "http://" = true ∨
      strStartsWith "http://192.168.1.50:3001" "https://" = true) ∧
    getApiBaseUrlStr "http://192.168.1.50:3001" = "http://192.168.1.50:3001" :=
  ⟨Or.inl (by decide),
    resolver_scheme_verbatim "http://192.168.1.50:3001" (Or.inl (by decide))⟩

/-- C10: for every input, including the unset and empty cases, the
resolver's output begins with `http://` or `https://`, and the resolver is
idempotent: applied to its own output it returns that output unchanged. -/
theorem resolver_scheme_and_idempotent (raw : Option String) :
    (strStartsWith (getApiBaseUrl raw) "http://" = true ∨
      strStartsWith (getApiBaseUrl raw) "https://" = true) ∧
    getApiBaseUrl (some (getApiBaseUrl raw)) = getApiBaseUrl raw :=
  ⟨getApiBaseUrl_scheme raw, scheme_fixed (getApiBaseUrl_scheme raw)⟩

lemma strIncludes_empty_needle (s : String) : strIncludes s "" = true := by
  unfold strIncludes
  have h : ("" : String).data = [] := rfl
  rw [h]
  exact listContains_nil _

/-- C4: the filtered batch list contains exactly the batches whose name
contains the search term as a case-insensitive substring, is a sublist of
the full batch list, and equals the full list for the empty term. -/
theorem filteredBatches_spec (term : String) (batches : List Batch) :
    (∀ b, b ∈ filteredBatches term batches ↔
        b ∈ batches ∧ strIncludes (strToLower b.name) (strToLower term) = true) ∧
    (filteredBatches term batches).Sublist batches ∧
    (term = "" → filteredBatches term batches = batches) := by
  refine ⟨fun b => ?_, List.filter_sublist _, fun ht => ?_⟩
  · simp [filteredBatches, List.mem_filter]
  · subst ht
    apply List.filter_eq_self.mpr
    intro a _
    show strIncludes (strToLower a.name) (strToLower "") = true
    have h0 : strToLower "" = "" := rfl
    rw [h0]
    exact strIncludes_empty_needle _

/-- Witness for C4 at concrete inputs: membership at a matching batch, and
the empty search term keeps the list unchanged. -/
theorem filteredBatches_spec_witness :
    (sampleBatch ∈ filteredBatches "alg" [sampleBatch, sampleBatch2] ↔
      sampleBatch ∈ [sampleBatch, sampleBatch2] ∧
        strIncludes (strToLower sampleBatch.name) (strToLower "alg") = true) ∧
    filteredBatches "" [sampleBatch, sampleBatch2] = [sampleBatch, sampleBatch2] :=
  ⟨(filteredBatches_spec "alg" [sampleBatch, sampleBatch2]).1 sampleBatch,
    (filteredBatches_spec "" [sampleBatch, sampleBatch2]).2.2 rfl⟩

/-- C1 fails on the dialog: at a failed (non-success) save the toast is
shown, but handleSubmit has already closed the dialog unconditionally, so
the dialog does NOT remain open. -/
theorem save_failure_dialog_cex :
    (handleSubmit "http://localhost:3001" none sampleForm FetchOutcome.httpError).dialogOpen
        = false ∧
    Toast.mk "Error saving batch" "Could not save the batch." ∈
      (handleSubmit "http://localhost:3001" none sampleForm FetchOutcome.httpError).toasts := by
  decide

/-- C1 (amended): when a batch save fails, a user-visible error toast is
shown and no batch re-fetch happens, but the dialog does not remain open —
the submit handler closes it unconditionally before the save settles, so
the dialog ends closed on both the failure and the success path. -/
theorem save_failure_toast_dialog_closed (base : String) (sel : Option Batch)
    (form : BatchFormData) (o : FetchOutcome) :
    (o ≠ FetchOutcome.ok →
      (∃ t ∈ (handleSubmit base sel form o).toasts, t.title = "Error saving batch") ∧
      (handleSubmit base sel form o).dialogOpen = false ∧
      (handleSubmit base sel form o).refetchBatches = false) ∧
    (o = FetchOutcome.ok →
      (handleSubmit base sel form o).dialogOpen = false ∧
      (handleSubmit base sel form o).refetchBatches = true) := by
  cases o with
  | ok =>
      exact ⟨fun h => absurd rfl h, fun _ => ⟨rfl, rfl⟩⟩
  | httpError =>
      refine ⟨fun _ => ⟨⟨⟨"Error saving batch", "Could not save the batch."⟩, ?_, rfl⟩, rfl, rfl⟩,
        fun h => by cases h⟩
      cases sel <;> exact List.Mem.head _
  | networkError msg =>
      refine ⟨fun _ => ⟨⟨⟨"Error saving batch", "An error occurred: " ++ msg⟩, ?_, rfl⟩, rfl, rfl⟩,
        fun h => by cases h⟩
      cases sel <;> exact List.Mem.head _

/-- Witness for C1 (amended) at a concrete failed save. -/
theorem save_failure_toast_dialog_closed_witness :
    (FetchOutcome.httpError ≠ FetchOutcome.ok) ∧
    ((∃ t ∈ (handleSubmit "http://localhost:3001" none sampleForm FetchOutcome.httpError).toasts,
        t.title = "Error saving batch") ∧
      (handleSubmit "http://localhost:3001" none sampleForm FetchOutcome.httpError).dialogOpen
          = false ∧
      (handleSubmit "http://localhost:3001" none sampleForm FetchOutcome.httpError).refetchBatches
          = false) :=
  ⟨by decide,
    (save_failure_toast_dialog_closed "http://localhost:3001" none sampleForm
        FetchOutcome.httpError).1 (by decide)⟩

/-- C5: with required fields populated, create mode issues exactly one POST
to the batch endpoint whose body is the form's current values; on success
the dialog is closed and the batch list re-fetched; edit mode instead
issues exactly one PUT carrying the selected batch's id. -/
theorem submit_requests_spec (base : String) (form : BatchFormData)
    (_hreq : requiredFilled form) (o : FetchOutcome) :
    (handleSubmit base none form o).requests =
      [⟨HttpMethod.post, base ++ "/api/batches", RequestBody.batchForm form⟩] ∧
    (o = FetchOutcome.ok →
      (handleSubmit base none form o).dialogOpen = false ∧
      (handleSubmit base none form o).refetchBatches = true) ∧
    (∀ b : Batch, (handleSubmit base (some b) form o).requests =
      [⟨HttpMethod.put, base ++ "/api/batches/" ++ b.id, RequestBody.batchForm form⟩]) := by
  refine ⟨?_, ?_, fun b => ?_⟩ <;> cases o <;> simp [handleSubmit, handleSaveBatch]

/-- Witness for C5 at a concrete successful create submission. -/
theorem submit_requests_spec_witness :
    requiredFilled sampleForm ∧
    (handleSubmit "http://localhost:3001" none sampleForm FetchOutcome.ok).requests =
      [⟨HttpMethod.post, "http://localhost:3001" ++ "/api/batches",
        RequestBody.batchForm sampleForm⟩] ∧
    (handleSubmit "http://localhost:3001" none sampleForm FetchOutcome.ok).dialogOpen = false ∧
    (handleSubmit "http://localhost:3001" none sampleForm FetchOutcome.ok).refetchBatches = true :=
  ⟨by decide,
    (submit_requests_spec "http://localhost:3001" sampleForm (by decide) FetchOutcome.ok).1,
    (submit_requests_spec "http://localhost:3001" sampleForm (by decide) FetchOutcome.ok).2.1 rfl⟩

/-- C6: declining the delete confirmation issues no request at all, and a
DELETE can appear among the issued requests only when confirmed. -/
theorem delete_requires_confirmation (base id : String) (o : FetchOutcome) :
    (handleDeleteBatch base false id o).requests = [] ∧
    (∀ c : Bool, (∃ r ∈ (handleDeleteBatch base c id o).requests,
        r.method = HttpMethod.delete) → c = true) := by
  refine ⟨rfl, fun c hr => ?_⟩
  cases c
  · rcases hr with ⟨r, hrmem, _⟩
    simp [handleDeleteBatch] at hrmem
  · rfl

/-- Witness for C6: no request without confirmation, and the implication
instantiated at an actually issued DELETE. -/
theorem delete_requires_confirmation_witness :
    (handleDeleteBatch "http://localhost:3001" false "B1" FetchOutcome.ok).requests = [] ∧
    true = true :=
  ⟨(delete_requires_confirmation "http://localhost:3001" "B1" FetchOutcome.ok).1,
    (delete_requires_confirmation "http://localhost:3001" "B1" FetchOutcome.ok).2 true
      ⟨⟨HttpMethod.delete, "http://localhost:3001" ++ "/api/batches/" ++ "B1", RequestBody.empty⟩,
        by decide, rfl⟩⟩

/-- C7 fails for a whitespace-only name: both fields are non-empty strings,
yet no POST is issued, because the handler gates on the TRIMMED values. -/
theorem addStudent_nonempty_cex :
    (" " ≠ "") ∧ ("A1" ≠ "") ∧
    (handleAddStudent "http://localhost:3001" " " "A1" "" FetchOutcome.ok).requests = [] := by
  decide

/-- C7 (amended): a POST to the students endpoint is issued exactly when
name and admission number are both nonempty after trimming (phone number
unconstrained); an empty name is a no-op issuing no POST; a successful
POST re-fetches the student list and clears the three input fields. -/
theorem addStudent_spec (base name admission phone : String) (o : FetchOutcome) :
    (jsTrim name ≠ "" ∧ jsTrim admission ≠ "" →
      (handleAddStudent base name admission phone o).requests =
        [⟨HttpMethod.post, base ++ "/api/students", RequestBody.student name admission phone⟩]) ∧
    (jsTrim name = "" ∨ jsTrim admission = "" →
      handleAddStudent base name admission phone o =
        ⟨[], name, admission, phone, false, [], []⟩) ∧
    (name = "" → (handleAddStudent base name admission phone o).requests = []) ∧
    (jsTrim name ≠ "" → jsTrim admission ≠ "" → o = FetchOutcome.ok →
      (handleAddStudent base name admission phone o).studentsRefetched = true ∧
      (handleAddStudent base name admission phone o).newStudentName = "" ∧
      (handleAddStudent base name admission phone o).newStudentAdmissionNumber = "" ∧
      (handleAddStudent base name admission phone o).newStudentPhoneNumber = "") := by
  by_cases hg : jsTrim name ≠ "" ∧ jsTrim admission ≠ ""
  · refine ⟨fun _ => ?_, fun hcon => ?_, fun hn => ?_, fun h1 h2 ho => ?_⟩
    · cases o <;> simp [handleAddStudent, hg]
    · rcases hcon with h | h
      · exact absurd h hg.1
      · exact absurd h hg.2
    · subst hn
      exact absurd rfl hg.1
    · subst ho
      simp [handleAddStudent, hg]
  · refine ⟨fun h => absurd h hg, fun _ => ?_, fun hn => ?_, fun h1 h2 _ => absurd ⟨h1, h2⟩ hg⟩
    · simp [handleAddStudent, hg]
    · simp [handleAddStudent, hg]

/-- Witness for C7 (amended) at a concrete successful add. -/
theorem addStudent_spec_witness :
    (jsTrim "Bob" ≠ "" ∧ jsTrim "A2" ≠ "") ∧
    (handleAddStudent "http://localhost:3001" "Bob" "A2" "" FetchOutcome.ok).requests =
      [⟨HttpMethod.post, "http://localhost:3001" ++ "/api/students",
        RequestBody.student "Bob" "A2" ""⟩] ∧
    (handleAddStudent "http://localhost:3001" "Bob" "A2" "" FetchOutcome.ok).studentsRefetched
        = true :=
  ⟨⟨by decide, by decide⟩,
    (addStudent_spec "http://localhost:3001" "Bob" "A2" "" FetchOutcome.ok).1
      ⟨by decide, by decide⟩,
    ((addStudent_spec "http://localhost:3001" "Bob" "A2" "" FetchOutcome.ok).2.2.2
      (by decide) (by decide) rfl).1⟩

/-- C8: choosing a faculty value clears the skill selection in the same
state update, leaves every other form field unchanged, and the skill
options offered afterwards are exactly that faculty's skills. -/
theorem faculty_change_resets_skill (formData : BatchFormData) (value : String)
    (faculties : List Faculty) (skills : List Skill) (f : Faculty)
    (hf : faculties.find? (fun x => x.id == value) = some f) :
    (selectFacultyChange formData value).facultyId = value ∧
    (selectFacultyChange formData value).skillId = "" ∧
    (selectFacultyChange formData value).name = formData.name ∧
    (selectFacultyChange formData value).description = formData.description ∧
    (selectFacultyChange formData value).startDate = formData.startDate ∧
    (selectFacultyChange formData value).endDate = formData.endDate ∧
    (selectFacultyChange formData value).startTime = formData.startTime ∧
    (selectFacultyChange formData value).endTime = formData.endTime ∧
    (selectFacultyChange formData value).maxStudents = formData.maxStudents ∧
    (selectFacultyChange formData value).status = formData.status ∧
    (selectFacultyChange formData value).studentIds = formData.studentIds ∧
    (selectFacultyChange formData value).daysOfWeek = formData.daysOfWeek ∧
    availableSkills faculties skills (selectFacultyChange formData value) = f.skills := by
  refine ⟨rfl, rfl, rfl, rfl, rfl, rfl, rfl, rfl, rfl, rfl, rfl, rfl, ?_⟩
  simp [availableSkills, selectFacultyChange, hf]

/-- Witness for C8 at a concrete faculty choice. -/
theorem faculty_change_resets_skill_witness :
    (selectFacultyChange sampleForm "F1").skillId = "" ∧
    availableSkills [sampleFaculty] [] (selectFacultyChange sampleForm "F1")
        = sampleFaculty.skills :=
  ⟨(faculty_change_resets_skill sampleForm "F1" [sampleFaculty] [] sampleFaculty
      (by decide)).2.1,
    (faculty_change_resets_skill sampleForm "F1" [sampleFaculty] [] sampleFaculty
      (by decide)).2.2.2.2.2.2.2.2.2.2.2.2⟩

/-- C2 fails for the skills fetch: with a skill previously loaded, a failed
(thrown) skills fetch resets the slice to the empty list instead of
leaving the prior value intact. -/
theorem silent_failure_skills_cex :
    (fetchSkills [sampleSkill] (SkillsFetchOutcome.networkError "ECONNREFUSED")).1 = [] ∧
    (fetchSkills [sampleSkill] (SkillsFetchOutcome.networkError "ECONNREFUSED")).1
        ≠ [sampleSkill] := by
  decide

/-- C2 (amended): failed batch and faculty fetches, and delete-batch and
add-student failures, only write to the log and leave their state slice
unchanged (no toast); a failed skills fetch also logs only, but RESETS the
skills slice to the empty list, discarding the previously loaded skills. -/
theorem silent_failure_spec (batches : List Batch) (faculties : List Faculty)
    (skills : List Skill) (msg base id name admission phone : String) :
    (fetchBatches batches (ListFetchOutcome.networkError msg)).1 = batches ∧
    (fetchBatches batches (ListFetchOutcome.networkError msg)).2 ≠ [] ∧
    (fetchFaculties faculties (ListFetchOutcome.networkError msg)).1 = faculties ∧
    (fetchFaculties faculties (ListFetchOutcome.networkError msg)).2 ≠ [] ∧
    (fetchSkills skills (SkillsFetchOutcome.networkError msg)).1 = [] ∧
    (fetchSkills skills (SkillsFetchOutcome.networkError msg)).2 ≠ [] ∧
    (∀ o : FetchOutcome, o ≠ FetchOutcome.ok →
      (handleDeleteBatch base true id o).refetchBatches = false ∧
      (handleDeleteBatch base true id o).toasts = [] ∧
      (handleDeleteBatch base true id o).logs ≠ []) ∧
    (∀ o : FetchOutcome, o ≠ FetchOutcome.ok →
      (handleAddStudent base name admission phone o).studentsRefetched = false ∧
      (handleAddStudent base name admission phone o).toasts = [] ∧
      (handleAddStudent base name admission phone o).newStudentName = name ∧
      (handleAddStudent base name admission phone o).newStudentAdmissionNumber = admission ∧
      (handleAddStudent base name admission phone o).newStudentPhoneNumber = phone) := by
  refine ⟨rfl, by simp [fetchBatches], rfl, by simp [fetchFaculties], rfl,
    by simp [fetchSkills], fun o ho => ?_, fun o ho => ?_⟩
  · cases o with
    | ok => exact absurd rfl ho
    | httpError => exact ⟨rfl, rfl, by simp [handleDeleteBatch]⟩
    | networkError m => exact ⟨rfl, rfl, by simp [handleDeleteBatch]⟩
  · by_cases hg : jsTrim name ≠ "" ∧ jsTrim admission ≠ ""
    · cases o with
      | ok => exact absurd rfl ho
      | httpError => simp [handleAddStudent, hg]
      | networkError m => simp [handleAddStudent, hg]
    · simp [handleAddStudent, hg]

/-- Witness for C2 (amended) at a concrete failed delete. -/
theorem silent_failure_spec_witness :
    (FetchOutcome.httpError ≠ FetchOutcome.ok) ∧
    (handleDeleteBatch "http://localhost:3001" true "B1" FetchOutcome.httpError).refetchBatches
        = false ∧
    (handleDeleteBatch "http://localhost:3001" true "B1" FetchOutcome.httpError).toasts = [] :=
  ⟨by decide,
    ((silent_failure_spec [] [] [] "boom" "http://localhost:3001" "B1" "Bob" "A2"
        "").2.2.2.2.2.2.1 FetchOutcome.httpError (by decide)).1,
    ((silent_failure_spec [] [] [] "boom" "http://localhost:3001" "B1" "Bob" "A2"
        "").2.2.2.2.2.2.1 FetchOutcome.httpError (by decide)).2.1⟩
